import Mathlib

set_option maxRecDepth 4000

/-!
Shallow embedding of the risk-scoring and report pipeline of the
`summarizer` repository (files `app.py` and `email_service.py`).

Python strings are modelled as lists of characters (`Str`).  Python's
`str.lower` is modelled character-wise with `Char.toLower` (all keyword
matching in this program is ASCII), `str.split(sep)` and `str.split()`
by `pySplit`, `str.strip()` by `pyStrip`, the substring test (`in`) by
`isSub`, `str.count` by `pyCount`, and `round` (which Python applies to
the result of a division; floating point is idealised as exact rational
arithmetic) by round-half-to-even (`pyRound`).
-/

abbrev Str := List Char

/-- Model of Python `str.lower()` (character-wise; adequate for ASCII). -/
def pyLower (s : Str) : Str := s.map Char.toLower

/-- Model of Python `str.split(sep)` for a one-character separator,
generalised to a predicate: splits at every separator character and keeps
empty fragments, exactly like Python `"a.b.".split(".") == ["a","b",""]`.
With the whitespace predicate and a final filter of empties it also models
argumentless `str.split()`. -/
def pySplit (p : Char → Bool) : Str → List Str
  | [] => [[]]
  | c :: t =>
    if p c then [] :: pySplit p t
    else
      match pySplit p t with
      | [] => [[c]]
      | h :: rest => (c :: h) :: rest

/-- Model of Python `str.strip()`: drop leading and trailing whitespace. -/
def pyStrip (l : Str) : Str :=
  ((l.dropWhile Char.isWhitespace).reverse.dropWhile Char.isWhitespace).reverse

/-- Model of Python argumentless `str.split()`: split on whitespace,
discarding empty fragments. -/
def pyWords (l : Str) : List Str :=
  (pySplit (fun c => c.isWhitespace) l).filter (fun w => !w.isEmpty)

/-- `leadsWith pat s` is true when `pat` occurs at the very start of `s`. -/
def leadsWith : Str → Str → Bool
  | [], _ => true
  | _ :: _, [] => false
  | x :: xs, y :: ys => x == y && leadsWith xs ys

/-- Model of Python `pat in s`: `pat` occurs contiguously somewhere in `s`. -/
def isSub (pat : Str) : Str → Bool
  | [] => leadsWith pat []
  | c :: t => leadsWith pat (c :: t) || isSub pat t

/-- Worker for `pyCount`, structurally recursive on a fuel argument so that
it reduces in the kernel.  Each step consumes at least one character of the
text, so fuel equal to the text length never runs out. -/
def pyCountAux (pat : Str) : ℕ → Str → ℕ
  | 0, _ => 0
  | _ + 1, [] => 0
  | fuel + 1, c :: t =>
    if pat ≠ [] ∧ leadsWith pat (c :: t) = true then
      1 + pyCountAux pat fuel ((c :: t).drop pat.length)
    else
      pyCountAux pat fuel t

/-- Model of Python `s.count(pat)` for a non-empty `pat`: the number of
non-overlapping occurrences, scanning left to right and jumping over each
match.  (The program never calls `count` with an empty pattern.) -/
def pyCount (s pat : Str) : ℕ := pyCountAux pat s.length s

/-- Model of Python `round` applied to the exact rational `a / b` (with
`b > 0`; floating point is idealised as exact rational arithmetic):
round half to even.  `f` is the floor of `a / b` and the fractional part
`(a - f*b)/b` is compared with `1/2` by cross-multiplication with `b`. -/
def pyRoundDiv (a b : ℤ) : ℤ :=
  let f := a.fdiv b
  let r2 := 2 * (a - f * b)
  if r2 < b then f
  else if b < r2 then f + 1
  else if f % 2 = 0 then f else f + 1

/-- Severity of a finding (spec §3 `RiskFinding.severity`). -/
inductive Sev where
  | high
  | medium
  | low
deriving DecidableEq, Repr

/-- Result quadruple of the two numeric scoring functions
(`calculate_risk_score` in `app.py` and `calculate_risk_counts` in
`email_service.py` both return `score, high, medium, low`). -/
structure RiskNums where
  score : ℤ
  high : ℤ
  medium : ℤ
  low : ℤ
deriving DecidableEq, Repr

/-- `any kw in s` over a list of keywords, as Python `any(word in s for word in kws)`. -/
def anyKw (kws : List Str) (s : Str) : Bool := kws.any (fun k => isSub k s)

/-- The sentence lists of the program: `[s.strip() for s in text.split('.') if s.strip()]`. -/
def pySentences (text : Str) : List Str :=
  ((pySplit (fun c => c == '.') text).map pyStrip).filter (fun s => !s.isEmpty)

/-- HIGH keywords of `calculate_risk_counts` (email_service.py line 255). -/
def countsHigh : List Str :=
  ["critical".data, "severe".data, "high risk".data, "significant".data, "major".data]

/-- MEDIUM keywords of `calculate_risk_counts` (email_service.py line 258). -/
def countsMedium : List Str :=
  ["moderate".data, "medium".data, "potential".data, "concerning".data]

/-- Exclusion keywords of the low-count line of `calculate_risk_counts`
(email_service.py lines 262-263). -/
def countsLowExclude : List Str :=
  ["critical".data, "severe".data, "high risk".data, "moderate".data,
   "medium".data, "potential".data]

/-- HIGH keywords of `categorize_risks` (email_service.py line 285). -/
def catHigh : List Str := ["critical".data, "severe".data, "high".data]

/-- MEDIUM keywords of `categorize_risks` (email_service.py line 287). -/
def catMedium : List Str := ["moderate".data, "medium".data]

/-- HIGH keywords of `calculate_risk_score` (app.py line 394). -/
def scoreHigh : List Str := ["critical".data, "severe".data, "high".data]

/-- MEDIUM keywords of `calculate_risk_score` (app.py line 395). -/
def scoreMedium : List Str := ["moderate".data, "medium".data]

/-- HIGH keywords of `display_risks_with_filters` (app.py line 465). -/
def displayHigh : List Str :=
  ["critical".data, "severe".data, "high risk".data, "significant".data,
   "major".data, "serious".data]

/-- MEDIUM keywords of `display_risks_with_filters` (app.py line 466). -/
def displayMedium : List Str :=
  ["moderate".data, "medium".data, "potential".data, "possible".data,
   "concerning".data]

/-- Embedding of `calculate_risk_counts` (email_service.py lines 246-272):
per-sentence keyword counting over the lower-cased text, then
`score = min(100, round((high*3 + medium*2 + low)/(total*3)*100))`, with the
`total == 0` early return of zeros. -/
def calculate_risk_counts (risks_text : Str) : RiskNums :=
  let sentences := pySentences (pyLower risks_text)
  let high_count : ℤ := sentences.countP (fun s => anyKw countsHigh s)
  let medium_count : ℤ := sentences.countP (fun s => anyKw countsMedium s)
  let low_count : ℤ :=
    sentences.countP (fun s =>
      decide (5 < (pyWords s).length) && !anyKw countsLowExclude s)
  let total := high_count + medium_count + low_count
  if total = 0 then ⟨0, 0, 0, 0⟩
  else
    ⟨min 100 (pyRoundDiv ((high_count * 3 + medium_count * 2 + low_count) * 100)
        (total * 3)),
     high_count, medium_count, low_count⟩

/-- Body of `calculate_risk_score` (app.py lines 393-406) after the text
sample has been formed: raw keyword-occurrence counting over the sample,
`low = max(0, len(sample.split('.')) - high - medium)`, the `total == 0`
early return, and `score = min(100, round((h*3+m*2+l)/max(total,1)*20))`. -/
def scoreFromSample (text_sample : Str) : RiskNums :=
  let high_count : ℤ := ((scoreHigh.map (fun w => pyCount text_sample w)).sum : ℕ)
  let medium_count : ℤ := ((scoreMedium.map (fun w => pyCount text_sample w)).sum : ℕ)
  let low_count : ℤ :=
    max 0 (((pySplit (fun c => c == '.') text_sample).length : ℤ) -
      high_count - medium_count)
  let total := high_count + medium_count + low_count
  if total = 0 then ⟨0, 0, 0, 0⟩
  else
    ⟨min 100 (pyRoundDiv ((high_count * 3 + medium_count * 2 + low_count) * 20)
        (max total 1)),
     high_count, medium_count, low_count⟩

/-- Embedding of `calculate_risk_score` (app.py lines 383-406).  `none`
models a non-string argument (the `isinstance` guard); the empty string is
falsy, so both give the zero early return.  The sample is the first 10000
characters of the lower-cased text (`text_lower[:min(len(text_lower), 10000)]`). -/
def calculate_risk_score : Option Str → RiskNums
  | none => ⟨0, 0, 0, 0⟩
  | some risks_text =>
    if risks_text.isEmpty then ⟨0, 0, 0, 0⟩
    else scoreFromSample ((pyLower risks_text).take 10000)

/-- Per-clause classifier inside the loop of `categorize_risks`
(email_service.py lines 283-290): HIGH keywords first, else MEDIUM
keywords, else LOW only when the clause has more than 5 whitespace-separated
words, else no finding at all. -/
def classifyClause (sentence : Str) : Option Sev :=
  let sentence_lower := pyLower sentence
  if anyKw catHigh sentence_lower then some Sev.high
  else if anyKw catMedium sentence_lower then some Sev.medium
  else if 5 < (pyWords sentence).length then some Sev.low
  else none

/-- Per-clause classifier inside the loop of `display_risks_with_filters`
(app.py lines 472-479), same shape as `classifyClause` but with the wider
keyword lists of that function. -/
def displayClassify (sentence : Str) : Option Sev :=
  let sentence_lower := pyLower sentence
  if anyKw displayHigh sentence_lower then some Sev.high
  else if anyKw displayMedium sentence_lower then some Sev.medium
  else if 5 < (pyWords sentence).length then some Sev.low
  else none

/-- The classification loop shared by `categorize_risks` and
`display_risks_with_filters`: each sentence is appended, in order, to the
list chosen by the classifier, or to none of them. -/
def triGo (f : Str → Option Sev) : List Str → List Str × List Str × List Str
  | [] => ([], [], [])
  | s :: rest =>
    let r := triGo f rest
    match f s with
    | some Sev.high => (s :: r.1, r.2.1, r.2.2)
    | some Sev.medium => (r.1, s :: r.2.1, r.2.2)
    | some Sev.low => (r.1, r.2.1, s :: r.2.2)
    | none => r

/-- Embedding of `categorize_risks` (email_service.py lines 274-292):
split the original text into stripped non-empty sentences and classify each
into exactly one of the three lists (or drop it). -/
def categorize_risks (risks_text : Str) : List Str × List Str × List Str :=
  triGo classifyClause (pySentences risks_text)

/-- Embedding of the categorisation part of `display_risks_with_filters`
(app.py lines 447-479). -/
def displayCategorize (risks_text : Str) : List Str × List Str × List Str :=
  triGo displayClassify (pySentences risks_text)

/-- Embedding of `validate_email` (email_service.py lines 162-172). -/
def validate_email (email : Str) : Bool :=
  if email.isEmpty then false
  else if !isSub ("@".data) email || !isSub (".".data) email then false
  else true


/-- The score formula exactly as the spec words it in §4.1 step 3:
`min(100, round((high*3 + medium*2 + low*1) / total * 20))` with
`total = high+medium+low` and score `0` when `total == 0`; the rational
`(high*3+medium*2+low*1)/total * 20` is `((high*3+medium*2+low*1)*20)/total`,
rounded with `pyRoundDiv`.  Used only to compare the spec's formula with the
program's scoring sites. -/
def specScoreFormula (h m l : ℤ) : ℤ :=
  if h + m + l = 0 then 0
  else min 100 (pyRoundDiv ((h * 3 + m * 2 + l * 1) * 20) (h + m + l))

/-- The score formula actually used by `calculate_risk_counts`
(email_service.py line 270): `min(100, round((h*3 + m*2 + l)/(total*3)*100))`,
`0` when `total == 0`. -/
def countsSiteScore (h m l : ℤ) : ℤ :=
  if h + m + l = 0 then 0
  else min 100 (pyRoundDiv ((h * 3 + m * 2 + l) * 100) ((h + m + l) * 3))

lemma pyRoundDiv_nonneg {a b : ℤ} (ha : 0 ≤ a) (hb : 0 ≤ b) :
    0 ≤ pyRoundDiv a b := by
  have hf : 0 ≤ a.fdiv b := Int.fdiv_nonneg ha hb
  unfold pyRoundDiv
  dsimp only
  split
  · exact hf
  · split
    · omega
    · split <;> omega

lemma triGo_eq_filter (f : Str → Option Sev) (L : List Str) :
    triGo f L =
      (L.filter (fun s => decide (f s = some Sev.high)),
       L.filter (fun s => decide (f s = some Sev.medium)),
       L.filter (fun s => decide (f s = some Sev.low))) := by
  induction L with
  | nil => simp [triGo]
  | cons a L ih =>
    rcases h : f a with _ | sev
    · simp [triGo, h, ih, List.filter_cons]
    · cases sev <;> simp [triGo, h, ih, List.filter_cons]

lemma pySplit_eq_single {p : Char → Bool} :
    ∀ {l : Str}, (∀ c ∈ l, p c = false) → pySplit p l = [l]
  | [], _ => rfl
  | c :: t, h => by
    have hc : p c = false := h c (List.mem_cons_self c t)
    have ht : pySplit p t = [t] :=
      pySplit_eq_single (fun x hx => h x (List.mem_cons_of_mem c hx))
    simp [pySplit, hc, ht]

lemma dropWhile_noSat {p : Char → Bool} :
    ∀ {l : Str}, (∀ c ∈ l, p c = false) → l.dropWhile p = l
  | [], _ => rfl
  | c :: t, h => by
    have hc : p c = false := h c (List.mem_cons_self c t)
    simp [List.dropWhile_cons, hc]

lemma pyStrip_noSat {l : Str} (h : ∀ c ∈ l, Char.isWhitespace c = false) :
    pyStrip l = l := by
  unfold pyStrip
  rw [dropWhile_noSat h, dropWhile_noSat (fun c hc => h c (List.mem_reverse.mp hc)),
    List.reverse_reverse]

lemma leadsWith_subset :
    ∀ {pat s : Str}, leadsWith pat s = true → ∀ x ∈ pat, x ∈ s
  | [], _, _, x, hx => by simp at hx
  | _ :: _, [], h, _, _ => by simp [leadsWith] at h
  | a :: pat, b :: s, h, x, hx => by
    simp only [leadsWith, Bool.and_eq_true, beq_iff_eq] at h
    rcases List.mem_cons.mp hx with rfl | hx'
    · exact h.1 ▸ List.mem_cons_self _ _
    · exact List.mem_cons_of_mem _ (leadsWith_subset h.2 x hx')

lemma isSub_subset :
    ∀ {pat s : Str}, isSub pat s = true → ∀ x ∈ pat, x ∈ s
  | pat, [], h, x, hx => by
    cases pat with
    | nil => simp at hx
    | cons a t => simp [isSub, leadsWith] at h
  | pat, c :: s, h, x, hx => by
    simp only [isSub, Bool.or_eq_true] at h
    rcases h with h | h
    · exact leadsWith_subset h x hx
    · exact List.mem_cons_of_mem _ (isSub_subset h x hx)

lemma isSub_append_of_right {pat b : Str} (h : isSub pat b = true) :
    ∀ a : Str, isSub pat (a ++ b) = true
  | [] => h
  | c :: a => by
    simp only [List.cons_append, isSub, Bool.or_eq_true]
    exact Or.inr (isSub_append_of_right h a)

lemma quadScore_spec (H M L : ℤ) (hH : 0 ≤ H) (hM : 0 ≤ M) (hL : 0 ≤ L) :
    (if H + M + L = 0 then (⟨0, 0, 0, 0⟩ : RiskNums)
      else ⟨min 100 (pyRoundDiv ((H * 3 + M * 2 + L) * 20) (max (H + M + L) 1)),
        H, M, L⟩).score =
    specScoreFormula
      (if H + M + L = 0 then (⟨0, 0, 0, 0⟩ : RiskNums)
        else ⟨min 100 (pyRoundDiv ((H * 3 + M * 2 + L) * 20) (max (H + M + L) 1)),
          H, M, L⟩).high
      (if H + M + L = 0 then (⟨0, 0, 0, 0⟩ : RiskNums)
        else ⟨min 100 (pyRoundDiv ((H * 3 + M * 2 + L) * 20) (max (H + M + L) 1)),
          H, M, L⟩).medium
      (if H + M + L = 0 then (⟨0, 0, 0, 0⟩ : RiskNums)
        else ⟨min 100 (pyRoundDiv ((H * 3 + M * 2 + L) * 20) (max (H + M + L) 1)),
          H, M, L⟩).low := by
  split
  · simp [specScoreFormula]
  · rename_i hne
    have h1 : max (H + M + L) 1 = H + M + L := max_eq_left (by omega)
    simp only [specScoreFormula, if_neg hne, h1, mul_one]

lemma quadCounts_spec (H M L : ℤ) :
    (if H + M + L = 0 then (⟨0, 0, 0, 0⟩ : RiskNums)
      else ⟨min 100 (pyRoundDiv ((H * 3 + M * 2 + L) * 100) ((H + M + L) * 3)),
        H, M, L⟩).score =
    countsSiteScore
      (if H + M + L = 0 then (⟨0, 0, 0, 0⟩ : RiskNums)
        else ⟨min 100 (pyRoundDiv ((H * 3 + M * 2 + L) * 100) ((H + M + L) * 3)),
          H, M, L⟩).high
      (if H + M + L = 0 then (⟨0, 0, 0, 0⟩ : RiskNums)
        else ⟨min 100 (pyRoundDiv ((H * 3 + M * 2 + L) * 100) ((H + M + L) * 3)),
          H, M, L⟩).medium
      (if H + M + L = 0 then (⟨0, 0, 0, 0⟩ : RiskNums)
        else ⟨min 100 (pyRoundDiv ((H * 3 + M * 2 + L) * 100) ((H + M + L) * 3)),
          H, M, L⟩).low := by
  split
  · simp [countsSiteScore]
  · rename_i hne
    simp only [countsSiteScore, if_neg hne]

lemma quadNums_bounds (H M L num den : ℤ) (hH : 0 ≤ H) (hM : 0 ≤ M) (hL : 0 ≤ L)
    (hnum : 0 ≤ num) (hden : 0 ≤ den) :
    0 ≤ (if H + M + L = 0 then (⟨0, 0, 0, 0⟩ : RiskNums)
        else ⟨min 100 (pyRoundDiv num den), H, M, L⟩).score ∧
    (if H + M + L = 0 then (⟨0, 0, 0, 0⟩ : RiskNums)
        else ⟨min 100 (pyRoundDiv num den), H, M, L⟩).score ≤ 100 ∧
    0 ≤ (if H + M + L = 0 then (⟨0, 0, 0, 0⟩ : RiskNums)
        else ⟨min 100 (pyRoundDiv num den), H, M, L⟩).high ∧
    0 ≤ (if H + M + L = 0 then (⟨0, 0, 0, 0⟩ : RiskNums)
        else ⟨min 100 (pyRoundDiv num den), H, M, L⟩).medium ∧
    0 ≤ (if H + M + L = 0 then (⟨0, 0, 0, 0⟩ : RiskNums)
        else ⟨min 100 (pyRoundDiv num den), H, M, L⟩).low := by
  have hr : 0 ≤ pyRoundDiv num den := pyRoundDiv_nonneg hnum hden
  split
  · simp
  · refine ⟨le_min (by norm_num) hr, min_le_left _ _, hH, hM, hL⟩

/-- Failing input for claim C1: a sentence containing the HIGH keyword
`major` of `calculate_risk_counts`, which is neither a HIGH nor a MEDIUM
keyword of `categorize_risks` and is missing from its own low-count
exclusion list. -/
def exC1 : Str := "Major delays are expected for the whole project.".data

/-- Claim C1: for every risk text, the high/medium/low counts printed in the
Score section (`calculate_risk_counts`) and the number of findings listed
under the High/Medium/Low headings of the Findings section
(`categorize_risks`) of the same `prepare_email_content` build are
identical.  The code violates this: on `exC1` the Score section reports
1 high, 0 medium and 1 low issue (the sentence is double counted), while
the Findings section lists 0 high, 0 medium and 1 low finding. -/
theorem claim_C1_sections_disagree :
    calculate_risk_counts exC1 = ⟨67, 1, 0, 1⟩ ∧
    categorize_risks exC1 =
      ([], [], ["Major delays are expected for the whole project".data]) ∧
    ¬((calculate_risk_counts exC1).high = ((categorize_risks exC1).1.length : ℤ) ∧
      (calculate_risk_counts exC1).medium =
        ((categorize_risks exC1).2.1.length : ℤ) ∧
      (calculate_risk_counts exC1).low = ((categorize_risks exC1).2.2.length : ℤ)) := by
  refine ⟨by decide, by decide, ?_⟩
  intro h
  have := h.1
  revert this
  decide

/-- Input of claim C2, verbatim from the spec's testable properties. -/
def exC2 : Str :=
  "The vendor shall indemnify against all critical liabilities. There is a moderate compliance gap noted here today.".data

/-- Claim C2 counterexample: neither scoring site gives the claimed score 50
on the claim's exact input — `calculate_risk_counts` returns 83 and
`calculate_risk_score` returns 40. -/
theorem claim_C2_counterexample :
    (calculate_risk_counts exC2).score ≠ 50 ∧
    (calculate_risk_score (some exC2)).score ≠ 50 := by
  refine ⟨?_, ?_⟩ <;> decide

/-- Claim C2 (amended): on the claim's exact input, per-clause
classification (`categorize_risks`) yields exactly 1 HIGH finding, 1 MEDIUM
finding and 0 LOW findings, and `calculate_risk_counts` counts (1, 1, 0),
but its score is 83 (formula `round((3+2)/(2*3)*100)`), while
`calculate_risk_score` returns score 40 with counts (1, 1, 1); no scoring
site produces 50. -/
theorem claim_C2_example_text :
    categorize_risks exC2 =
      (["The vendor shall indemnify against all critical liabilities".data],
       ["There is a moderate compliance gap noted here today".data], []) ∧
    calculate_risk_counts exC2 = ⟨83, 1, 1, 0⟩ ∧
    calculate_risk_score (some exC2) = ⟨40, 1, 1, 1⟩ := by
  refine ⟨by decide, by decide, by decide⟩

/-- Failing input for claim C4: `calculate_risk_score` counts raw keyword
occurrences, so three occurrences of `critical` in one sentence yield
severity counts summing to 3, while per-clause classification produces a
single finding. -/
def exC4 : Str := "critical critical critical".data

/-- Claim C4: the severity counts returned by the scoring operation sum to
the number of findings produced by per-clause classification.  The code
violates this: on `exC4` the counts of `calculate_risk_score` sum to 3
while `categorize_risks` produces exactly 1 finding. -/
theorem claim_C4_counts_vs_findings :
    (calculate_risk_score (some exC4)).high + (calculate_risk_score (some exC4)).medium +
      (calculate_risk_score (some exC4)).low = 3 ∧
    (categorize_risks exC4).1.length + (categorize_risks exC4).2.1.length +
      (categorize_risks exC4).2.2.length = 1 := by
  refine ⟨by decide, by decide⟩

/-- Claim C9: scoring is total and fails softly — on empty or non-string
input (`none` models any non-string value caught by the `isinstance`
guard), `calculate_risk_score` returns the zero quadruple, and on the
empty string `calculate_risk_counts` returns the zero quadruple and
`categorize_risks` returns no findings at all. -/
theorem claim_C9_soft_failure :
    (∀ inp : Option Str, (inp = none ∨ inp = some ([] : Str)) →
      calculate_risk_score inp = ⟨0, 0, 0, 0⟩) ∧
    calculate_risk_counts [] = ⟨0, 0, 0, 0⟩ ∧
    categorize_risks [] = ([], [], []) := by
  refine ⟨?_, by decide, rfl⟩
  rintro inp (rfl | rfl) <;> decide

/-- Witness for claim C9 at the concrete non-string input `none`. -/
theorem claim_C9_witness :
    ((none : Option Str) = none ∨ (none : Option Str) = some ([] : Str)) ∧
    calculate_risk_score none = ⟨0, 0, 0, 0⟩ :=
  ⟨Or.inl rfl, claim_C9_soft_failure.1 none (Or.inl rfl)⟩

/-- Claim C10: `validate_email` accepts exactly the non-empty strings that
contain at least one `@` and at least one `.` anywhere; in particular the
string `.@` is accepted while `user@hostcom` is rejected. -/
theorem claim_C10_validate_email :
    (∀ s : Str, validate_email s = true ↔
      (s ≠ [] ∧ isSub ("@".data) s = true ∧ isSub (".".data) s = true)) ∧
    validate_email (".@".data) = true ∧
    validate_email ("user@hostcom".data) = false := by
  refine ⟨fun s => ?_, by decide, by decide⟩
  unfold validate_email
  rcases s with _ | ⟨c, t⟩
  · simp
  · simp only [List.isEmpty_cons, Bool.false_eq_true, if_false, ne_eq, reduceCtorEq,
      not_false_eq_true, true_and]
    by_cases h1 : isSub ("@".data) (c :: t) = true <;>
      by_cases h2 : isSub (".".data) (c :: t) = true <;>
      simp [h1, h2]

lemma scoreFromSample_spec (sample : Str) :
    (scoreFromSample sample).score =
      specScoreFormula (scoreFromSample sample).high (scoreFromSample sample).medium
        (scoreFromSample sample).low := by
  simp only [scoreFromSample]
  exact quadScore_spec _ _ _ (Int.natCast_nonneg _) (Int.natCast_nonneg _) (le_max_left _ _)

lemma calculate_risk_counts_spec (s : Str) :
    (calculate_risk_counts s).score =
      countsSiteScore (calculate_risk_counts s).high (calculate_risk_counts s).medium
        (calculate_risk_counts s).low := by
  simp only [calculate_risk_counts]
  exact quadCounts_spec _ _ _

/-- Input showing that `calculate_risk_counts` does not use the spec's
`*20` scaling: one HIGH sentence alone. -/
def exC3 : Str := "critical.".data

/-- Claim C3 counterexample: the claim says the formula
`min(100, round((h*3+m*2+l)/total*20))` holds at every scoring call site,
but at the `calculate_risk_counts` site the input `critical.` yields
score 100 while the claimed formula on the very counts the function
returns gives 60. -/
theorem claim_C3_counterexample :
    (calculate_risk_counts exC3).score = 100 ∧
    specScoreFormula (calculate_risk_counts exC3).high
      (calculate_risk_counts exC3).medium (calculate_risk_counts exC3).low = 60 ∧
    (calculate_risk_counts exC3).score ≠
      specScoreFormula (calculate_risk_counts exC3).high
        (calculate_risk_counts exC3).medium (calculate_risk_counts exC3).low := by
  refine ⟨by decide, by decide, by decide⟩

/-- Claim C3 (amended): the spec's formula (weights 3/2/1, scaling `*20`,
cap `min(100, ...)`, and score 0 when `total == 0`) holds at the
`calculate_risk_score` site in app.py for every input, but the
`calculate_risk_counts` site in email_service.py instead divides by
`total*3` and scales by `*100`. -/
theorem claim_C3_score_formula :
    (∀ inp : Option Str,
      (calculate_risk_score inp).score =
        specScoreFormula (calculate_risk_score inp).high
          (calculate_risk_score inp).medium (calculate_risk_score inp).low) ∧
    (∀ s : Str,
      (calculate_risk_counts s).score =
        countsSiteScore (calculate_risk_counts s).high
          (calculate_risk_counts s).medium (calculate_risk_counts s).low) := by
  refine ⟨?_, calculate_risk_counts_spec⟩
  intro inp
  cases inp with
  | none => simp [calculate_risk_score, specScoreFormula]
  | some t =>
    cases h : t.isEmpty with
    | true => simp [calculate_risk_score, h, specScoreFormula]
    | false =>
      simp only [calculate_risk_score, h, Bool.false_eq_true, if_false]
      exact scoreFromSample_spec _

lemma scoreFromSample_bounds (sample : Str) :
    0 ≤ (scoreFromSample sample).score ∧ (scoreFromSample sample).score ≤ 100 ∧
    0 ≤ (scoreFromSample sample).high ∧ 0 ≤ (scoreFromSample sample).medium ∧
    0 ≤ (scoreFromSample sample).low := by
  simp only [scoreFromSample]
  refine quadNums_bounds _ _ _ _ _ (Int.natCast_nonneg _) (Int.natCast_nonneg _)
    (le_max_left _ _) ?_ ?_
  · have h1 : (0:ℤ) ≤ ((scoreHigh.map (fun w => pyCount sample w)).sum : ℕ) :=
      Int.natCast_nonneg _
    have h2 : (0:ℤ) ≤ ((scoreMedium.map (fun w => pyCount sample w)).sum : ℕ) :=
      Int.natCast_nonneg _
    have h3 : (0:ℤ) ≤ max 0 (((pySplit (fun c => c == '.') sample).length : ℤ) -
        ((scoreHigh.map (fun w => pyCount sample w)).sum : ℕ) -
        ((scoreMedium.map (fun w => pyCount sample w)).sum : ℕ)) := le_max_left _ _
    nlinarith
  · have := le_max_right
      (((scoreHigh.map (fun w => pyCount sample w)).sum : ℕ) +
        ((scoreMedium.map (fun w => pyCount sample w)).sum : ℕ) +
        max 0 (((pySplit (fun c => c == '.') sample).length : ℤ) -
          ((scoreHigh.map (fun w => pyCount sample w)).sum : ℕ) -
          ((scoreMedium.map (fun w => pyCount sample w)).sum : ℕ)))
      (1 : ℤ)
    omega

lemma calculate_risk_counts_bounds (s : Str) :
    0 ≤ (calculate_risk_counts s).score ∧ (calculate_risk_counts s).score ≤ 100 ∧
    0 ≤ (calculate_risk_counts s).high ∧ 0 ≤ (calculate_risk_counts s).medium ∧
    0 ≤ (calculate_risk_counts s).low := by
  simp only [calculate_risk_counts]
  refine quadNums_bounds _ _ _ _ _ (Int.natCast_nonneg _) (Int.natCast_nonneg _)
    (Int.natCast_nonneg _) ?_ ?_
  · have h1 : (0:ℤ) ≤ ((pySentences (pyLower s)).countP (fun t => anyKw countsHigh t) : ℕ) :=
      Int.natCast_nonneg _
    have h2 : (0:ℤ) ≤ ((pySentences (pyLower s)).countP (fun t => anyKw countsMedium t) : ℕ) :=
      Int.natCast_nonneg _
    have h3 : (0:ℤ) ≤ ((pySentences (pyLower s)).countP
        (fun t => decide (5 < (pyWords t).length) && !anyKw countsLowExclude t) : ℕ) :=
      Int.natCast_nonneg _
    nlinarith
  · have h1 : (0:ℤ) ≤ ((pySentences (pyLower s)).countP (fun t => anyKw countsHigh t) : ℕ) :=
      Int.natCast_nonneg _
    have h2 : (0:ℤ) ≤ ((pySentences (pyLower s)).countP (fun t => anyKw countsMedium t) : ℕ) :=
      Int.natCast_nonneg _
    have h3 : (0:ℤ) ≤ ((pySentences (pyLower s)).countP
        (fun t => decide (5 < (pyWords t).length) && !anyKw countsLowExclude t) : ℕ) :=
      Int.natCast_nonneg _
    nlinarith

/-- Claim C5: for every input (any string, or a non-string modelled by
`none`), the score returned by each scoring operation lies between 0 and
100 and every returned severity count is non-negative. -/
theorem claim_C5_bounds :
    ∀ (inp : Option Str) (s : Str),
      (0 ≤ (calculate_risk_score inp).score ∧ (calculate_risk_score inp).score ≤ 100 ∧
        0 ≤ (calculate_risk_score inp).high ∧ 0 ≤ (calculate_risk_score inp).medium ∧
        0 ≤ (calculate_risk_score inp).low) ∧
      (0 ≤ (calculate_risk_counts s).score ∧ (calculate_risk_counts s).score ≤ 100 ∧
        0 ≤ (calculate_risk_counts s).high ∧ 0 ≤ (calculate_risk_counts s).medium ∧
        0 ≤ (calculate_risk_counts s).low) := by
  intro inp s
  refine ⟨?_, calculate_risk_counts_bounds s⟩
  cases inp with
  | none => simp [calculate_risk_score]
  | some t =>
    cases h : t.isEmpty with
    | true => simp [calculate_risk_score, h]
    | false =>
      simp only [calculate_risk_score, h, Bool.false_eq_true, if_false]
      exact scoreFromSample_bounds _

/-- Claim C6: a clause containing any HIGH keyword is classified HIGH
regardless of MEDIUM keywords (high checked before medium), both in
`categorize_risks` and in `display_risks_with_filters`, and such a clause
lands in the high list and in no other list, contributing to exactly one
severity. -/
theorem claim_C6_high_priority :
    (∀ s : Str, anyKw catHigh (pyLower s) = true → classifyClause s = some Sev.high) ∧
    (∀ s : Str, anyKw displayHigh (pyLower s) = true →
      displayClassify s = some Sev.high) ∧
    (∀ t s : Str, s ∈ pySentences t → classifyClause s = some Sev.high →
      s ∈ (categorize_risks t).1 ∧ s ∉ (categorize_risks t).2.1 ∧
        s ∉ (categorize_risks t).2.2) := by
  refine ⟨fun s h => by simp [classifyClause, h],
    fun s h => by simp [displayClassify, h], ?_⟩
  intro t s hs hc
  rw [categorize_risks, triGo_eq_filter]
  refine ⟨?_, ?_, ?_⟩
  · simp [List.mem_filter, hs, hc]
  · simp [List.mem_filter, hc]
  · simp [List.mem_filter, hc]

/-- Clause of the spec's priority-order test, containing both `critical`
and `moderate`. -/
def c6clause : Str := "This is a critical and moderate issue".data

/-- Text whose single sentence is `c6clause`. -/
def c6text : Str := "This is a critical and moderate issue.".data

/-- Witness for claim C6 at the spec's own example clause. -/
theorem claim_C6_witness :
    (anyKw catHigh (pyLower c6clause) = true ∧
      classifyClause c6clause = some Sev.high) ∧
    (anyKw displayHigh (pyLower c6clause) = true ∧
      displayClassify c6clause = some Sev.high) ∧
    (c6clause ∈ pySentences c6text ∧
      c6clause ∈ (categorize_risks c6text).1 ∧
      c6clause ∉ (categorize_risks c6text).2.1 ∧
      c6clause ∉ (categorize_risks c6text).2.2) :=
  ⟨⟨by decide, claim_C6_high_priority.1 c6clause (by decide)⟩,
   ⟨by decide, claim_C6_high_priority.2.1 c6clause (by decide)⟩,
   ⟨by decide,
    (claim_C6_high_priority.2.2 c6text c6clause (by decide) (by decide)).1,
    (claim_C6_high_priority.2.2 c6text c6clause (by decide) (by decide)).2.1,
    (claim_C6_high_priority.2.2 c6text c6clause (by decide) (by decide)).2.2⟩⟩

/-- Claim C7: at both classification sites — `categorize_risks`
(email_service.py) and `display_risks_with_filters` (app.py) — a clause
matching no HIGH and no MEDIUM keyword of that site is classified LOW
exactly when it has more than 5 whitespace-delimited words; otherwise it is
dropped entirely and appears in no severity list of any text's
categorisation at that site. -/
theorem claim_C7_low_classification :
    ∀ s : Str,
      (anyKw catHigh (pyLower s) = false → anyKw catMedium (pyLower s) = false →
        ((classifyClause s = some Sev.low ↔ 5 < (pyWords s).length) ∧
         (classifyClause s = none ↔ ¬ 5 < (pyWords s).length) ∧
         (classifyClause s = none →
           ∀ t : Str, s ∉ (categorize_risks t).1 ∧ s ∉ (categorize_risks t).2.1 ∧
             s ∉ (categorize_risks t).2.2))) ∧
      (anyKw displayHigh (pyLower s) = false → anyKw displayMedium (pyLower s) = false →
        ((displayClassify s = some Sev.low ↔ 5 < (pyWords s).length) ∧
         (displayClassify s = none ↔ ¬ 5 < (pyWords s).length) ∧
         (displayClassify s = none →
           ∀ t : Str, s ∉ (displayCategorize t).1 ∧ s ∉ (displayCategorize t).2.1 ∧
             s ∉ (displayCategorize t).2.2))) := by
  intro s
  constructor
  · intro h1 h2
    refine ⟨?_, ?_, ?_⟩
    · by_cases hw : 5 < (pyWords s).length <;> simp [classifyClause, h1, h2, hw]
    · by_cases hw : 5 < (pyWords s).length <;> simp [classifyClause, h1, h2, hw]
    · intro hn t
      rw [categorize_risks, triGo_eq_filter]
      refine ⟨?_, ?_, ?_⟩ <;> simp [List.mem_filter, hn]
  · intro h1 h2
    refine ⟨?_, ?_, ?_⟩
    · by_cases hw : 5 < (pyWords s).length <;> simp [displayClassify, h1, h2, hw]
    · by_cases hw : 5 < (pyWords s).length <;> simp [displayClassify, h1, h2, hw]
    · intro hn t
      rw [displayCategorize, triGo_eq_filter]
      refine ⟨?_, ?_, ?_⟩ <;> simp [List.mem_filter, hn]

/-- Keyword-free clause with 7 words, classified LOW at both sites. -/
def c7long : Str := "the quick brown fox jumps over fences".data

/-- Keyword-free clause with 2 words, dropped entirely at both sites. -/
def c7short : Str := "hello world".data

/-- Witness for claim C7 at two concrete keyword-free clauses, exercising
both the `categorize_risks` and the `display_risks_with_filters` site. -/
theorem claim_C7_witness :
    anyKw catHigh (pyLower c7long) = false ∧
    anyKw catMedium (pyLower c7long) = false ∧
    anyKw displayHigh (pyLower c7long) = false ∧
    anyKw displayMedium (pyLower c7long) = false ∧
    classifyClause c7long = some Sev.low ∧
    displayClassify c7long = some Sev.low ∧
    anyKw catHigh (pyLower c7short) = false ∧
    anyKw catMedium (pyLower c7short) = false ∧
    anyKw displayHigh (pyLower c7short) = false ∧
    anyKw displayMedium (pyLower c7short) = false ∧
    classifyClause c7short = none ∧
    displayClassify c7short = none ∧
    c7short ∉ (categorize_risks c7short).2.2 ∧
    c7short ∉ (displayCategorize c7short).2.2 :=
  ⟨by decide, by decide, by decide, by decide,
   ((claim_C7_low_classification c7long).1 (by decide) (by decide)).1.mpr (by decide),
   ((claim_C7_low_classification c7long).2 (by decide) (by decide)).1.mpr (by decide),
   by decide, by decide, by decide, by decide,
   ((claim_C7_low_classification c7short).1 (by decide) (by decide)).2.1.mpr (by decide),
   ((claim_C7_low_classification c7short).2 (by decide) (by decide)).2.1.mpr (by decide),
   (((claim_C7_low_classification c7short).1 (by decide) (by decide)).2.2
     (by decide) c7short).2.2,
   (((claim_C7_low_classification c7short).2 (by decide) (by decide)).2.2
     (by decide) c7short).2.2⟩

lemma isSub_replicate_ne {k : Str} {x c : Char} (hx : x ∈ k) (hne : x ≠ c) (n : ℕ) :
    isSub k (List.replicate n c) = false := by
  cases h : isSub k (List.replicate n c) with
  | false => rfl
  | true =>
    exact absurd ((List.mem_replicate.mp (isSub_subset h x hx)).2) hne

lemma anyKw_replicate {kws : List Str} {c : Char}
    (h : ∀ k ∈ kws, ∃ x ∈ k, x ≠ c) (n : ℕ) :
    anyKw kws (List.replicate n c) = false := by
  unfold anyKw
  rw [List.any_eq_false]
  intro k hk
  obtain ⟨x, hx, hne⟩ := h k hk
  simp [isSub_replicate_ne hx hne n]

lemma categorize_replicate_a (n : ℕ) :
    categorize_risks (List.replicate n 'a') = ([], [], []) := by
  cases n with
  | zero => rfl
  | succ m =>
    have hnodot : ∀ c ∈ List.replicate (m + 1) 'a', (c == '.') = false := by
      intro c hc
      rw [(List.mem_replicate.mp hc).2]
      decide
    have hnows : ∀ c ∈ List.replicate (m + 1) 'a', Char.isWhitespace c = false := by
      intro c hc
      rw [(List.mem_replicate.mp hc).2]
      decide
    have hne : List.replicate (m + 1) 'a' ≠ ([] : Str) := by
      simp [List.replicate_succ]
    have hsent : pySentences (List.replicate (m + 1) 'a') = [List.replicate (m + 1) 'a'] := by
      unfold pySentences
      rw [pySplit_eq_single hnodot]
      simp [pyStrip_noSat hnows, List.isEmpty_eq_false, hne]
    have hlow : pyLower (List.replicate (m + 1) 'a') = List.replicate (m + 1) 'a' := by
      have ha : Char.toLower 'a' = 'a' := by decide
      simp [pyLower, List.map_replicate, ha]
    have hwords : pyWords (List.replicate (m + 1) 'a') = [List.replicate (m + 1) 'a'] := by
      unfold pyWords
      rw [pySplit_eq_single hnows]
      simp [List.isEmpty_eq_false, hne]
    have hcl : classifyClause (List.replicate (m + 1) 'a') = none := by
      have hh : anyKw catHigh (List.replicate (m + 1) 'a') = false :=
        anyKw_replicate (by decide) (m + 1)
      have hm : anyKw catMedium (List.replicate (m + 1) 'a') = false :=
        anyKw_replicate (by decide) (m + 1)
      simp [classifyClause, hlow, hh, hm, hwords]
    unfold categorize_risks
    rw [hsent]
    simp [triGo, hcl]

/-- Long input for claim C8: 10001 copies of `a` followed by a sentence
fragment containing a HIGH keyword beyond the 10000-character cap. -/
def c8text : Str := List.replicate 10001 'a' ++ (" critical".data)

lemma c8text_take : c8text.take 10000 = List.replicate 10000 'a' := by
  unfold c8text
  rw [List.take_append_of_le_length (by rw [List.length_replicate]; norm_num)]
  rw [List.take_replicate]
  congr 1

lemma c8text_cons : c8text = 'a' :: (List.replicate 10000 'a' ++ (" critical".data)) := by
  unfold c8text
  rw [show (10001 : ℕ) = 10000 + 1 from rfl, List.replicate_succ, List.cons_append]

lemma c8text_strip : pyStrip c8text = c8text := by
  have hwa : Char.isWhitespace 'a' = false := by decide
  have hwl : Char.isWhitespace 'l' = false := by decide
  have h1 : c8text.dropWhile Char.isWhitespace = c8text := by
    rw [c8text_cons, List.dropWhile_cons, hwa]
    rw [if_neg (by simp)]
  have hrev : c8text.reverse =
      'l' :: (("acitirc ".data) ++ (List.replicate 10001 'a').reverse) := by
    unfold c8text
    rw [List.reverse_append]
    have hw : (" critical".data).reverse = 'l' :: ("acitirc ".data) := by decide
    rw [hw, List.cons_append]
  have h2 : c8text.reverse.dropWhile Char.isWhitespace = c8text.reverse := by
    rw [hrev, List.dropWhile_cons, hwl]
    rw [if_neg (by simp)]
  unfold pyStrip
  rw [h1, h2, List.reverse_reverse]

lemma c8text_ne_nil : c8text ≠ ([] : Str) := by
  rw [c8text_cons]
  exact List.cons_ne_nil _ _

lemma c8text_sentences : pySentences c8text = [c8text] := by
  have hfrag : ∀ c ∈ (" critical".data), (c == '.') = false := by decide
  have hnodot : ∀ c ∈ c8text, (c == '.') = false := by
    intro c hc
    rcases List.mem_append.mp hc with h | h
    · rw [(List.mem_replicate.mp h).2]
      decide
    · exact hfrag c h
  have hemp : c8text.isEmpty = false := by
    rw [List.isEmpty_eq_false]
    exact c8text_ne_nil
  unfold pySentences
  rw [pySplit_eq_single hnodot]
  rw [List.map_cons, List.map_nil, c8text_strip, List.filter_cons, hemp]
  rw [if_pos (by rfl), List.filter_nil]

lemma c8text_classify : classifyClause c8text = some Sev.high := by
  have hsub : isSub ("critical".data) (pyLower c8text) = true := by
    unfold c8text pyLower
    rw [List.map_append]
    exact isSub_append_of_right (by decide) _
  have hh : anyKw catHigh (pyLower c8text) = true := by
    simp only [anyKw, catHigh, List.any_cons, hsub, Bool.true_or]
  simp [classifyClause, hh]

/-- Claim C8: the score-number computation of `calculate_risk_score`
depends only on the first 10000 characters of the (lower-cased) text —
scoring any text longer than 10000 characters equals scoring its
10000-character initial segment — while the per-clause classification
`categorize_risks` processes the full untruncated text, witnessed by a
text whose only HIGH keyword lies beyond the cap. -/
theorem claim_C8_truncation :
    (∀ s : Str, 10000 < s.length →
      calculate_risk_score (some s) = calculate_risk_score (some (s.take 10000))) ∧
    (∃ s : Str, 10000 < s.length ∧
      categorize_risks s ≠ categorize_risks (s.take 10000)) := by
  constructor
  · intro s h
    have hs : s.isEmpty = false := by
      rw [List.isEmpty_eq_false]
      intro h'
      rw [h'] at h
      simp at h
    have ht : (s.take 10000).isEmpty = false := by
      rw [List.isEmpty_eq_false]
      intro h'
      have hlen := congrArg List.length h'
      rw [List.length_take, List.length_nil] at hlen
      omega
    simp only [calculate_risk_score, hs, ht, Bool.false_eq_true, if_false]
    congr 1
    simp [pyLower, List.map_take, List.take_take]
  · refine ⟨c8text, ?_, ?_⟩
    · unfold c8text
      rw [List.length_append, List.length_replicate]
      omega
    · rw [c8text_take, categorize_replicate_a]
      intro heq
      have h1 : decide (classifyClause c8text = some Sev.high) = true := by
        rw [c8text_classify]
        rfl
      have hcat1 : (categorize_risks c8text).1 = [c8text] := by
        rw [categorize_risks, c8text_sentences, triGo_eq_filter]
        simp only [List.filter_cons, List.filter_nil, h1, eq_self_iff_true, if_true]
      have hfst := congrArg Prod.fst heq
      rw [hcat1] at hfst
      exact List.cons_ne_nil _ _ hfst

/-- Witness for claim C8 at a concrete text of length 10001. -/
theorem claim_C8_witness :
    10000 < (List.replicate 10001 'a' : Str).length ∧
    calculate_risk_score (some (List.replicate 10001 'a')) =
      calculate_risk_score (some ((List.replicate 10001 'a' : Str).take 10000)) :=
  ⟨by rw [List.length_replicate]; norm_num,
   claim_C8_truncation.1 _ (by rw [List.length_replicate]; norm_num)⟩
